import Mathlib

/-!
Shallow embedding of the `avoca` HTTP retry client (Go).

Source files embedded:
  * `errors.go`   — the `ErrStatusCode` sentinel and `RequestCreationError`.
  * `client.go`   — `Client.Do`, `copyHTTPRequestBody`, `newNopCloserFromBody`,
                    the five verb helpers, `NewClient`, the functional options,
                    `noRetry` and `defaultRetryPolicy`.
  * `client_test.go` — `mockRetrier`, the bounded-attempt retry strategy used
                    to exercise the client (loop up to `maxAttempts`, stop on
                    the first `nil` callback result, otherwise return the last
                    error).

Modelling conventions:
  * Go byte slices are `List Nat`; a `nil` slice is `Option.none` (Go
    distinguishes a nil slice from an empty one, and so do we).
  * A Go `error` value is the inductive `Err`; `errors.Is(e, ErrStatusCode)`
    is `errorsIsStatusCode`.  `Err.wrap` models an error produced with
    `fmt.Errorf("...%w", e)` (it unwraps); `Err.requestCreation` models
    `*RequestCreationError`, which has no `Unwrap` method and therefore stops
    the `errors.Is` chain.
  * An `io.ReadCloser` supplied as a request body is a `BodyStream`: its
    contents plus the errors (if any) that `io.ReadAll` and `Close` report.
  * `bytes.NewReader` wrapped in `io.NopCloser` is a `Reader`: an immutable
    buffer with a cursor.  Reading is pure: it returns the bytes and the
    advanced reader, so distinct views over the same buffer are independent
    by construction.
  * The `Doer` collaborator is a function of the invocation index (the mocks
    in the test suite are exactly such counters) and of the body view it is
    handed; it returns either a response or a failure carrying an optional
    response and an error, mirroring Go's `(*http.Response, error)` pair
    with the `(nil, nil)` case excluded (a conforming `Doer` never returns
    it, and the Go code would dereference nil if one did).
  * The retry callback closes over the mutable locals `res`/`err` of
    `Client.Do` and over the executor's invocation count; we thread that
    state explicitly as `DoState`, extended with the observable trace
    `sent` of body views installed before each executor call.
  * A `Retrier` is any function that may apply the callback to states:
    `RetrierFn`.  `noRetryDo` is the library's `noRetry`; `mockRetrierDo`
    is the test suite's `mockRetrier`.
  * `http.NewRequestWithContext` is Go standard library, not repository
    code; it is embedded for the inputs the repository exercises (valid
    method, parsable URL): it fails exactly when the context is nil —
    it never inspects cancellation — and initialises the header to an
    empty, non-nil map.
-/

namespace Avoca

/-- Go bytes (`[]byte` contents). -/
abbrev Bytes := List Nat

/-- Go `error` values, as far as the client can distinguish them.
`statusCode` is the sentinel `ErrStatusCode` from `errors.go`;
`base` is any other leaf error; `wrap` is `fmt.Errorf` `%w` wrapping;
`requestCreation` is `*RequestCreationError` (which does not implement
`Unwrap`, so `errors.Is` cannot see through it). -/
inductive Err where
  | statusCode : Err
  | base : String → Err
  | wrap : Err → Err
  | requestCreation : Err → Err
deriving DecidableEq, Repr

/-- `errors.Is(e, ErrStatusCode)`: true on the sentinel itself and on
anything `%w`-wrapping it; `*RequestCreationError` and leaf errors do not
match. -/
def errorsIsStatusCode : Err → Bool
  | Err.statusCode => true
  | Err.base _ => false
  | Err.wrap e => errorsIsStatusCode e
  | Err.requestCreation _ => false

/-- Is an optional error a `*RequestCreationError`? (Used to state what the
verb helpers return.) -/
def isRequestCreationErr : Option Err → Bool
  | some (Err.requestCreation _) => true
  | _ => false

/-- An original request body: an `io.ReadCloser` abstracted by its contents
and by the errors (if any) that fully reading it (`io.ReadAll`) and closing
it would report. -/
structure BodyStream where
  contents : Bytes
  readErr : Option Err
  closeErr : Option Err
deriving DecidableEq, Repr

/-- A `bytes.Reader` wrapped in `io.NopCloser`: an immutable buffer plus a
read cursor.  `Close` is a no-op, so it needs no model. -/
structure Reader where
  buf : Bytes
  pos : Nat
deriving DecidableEq, Repr

/-- Read at most `k` bytes: the bytes delivered and the advanced reader.
Pure, so reading one view never affects another view over the same buffer. -/
def Reader.read (r : Reader) (k : Nat) : Bytes × Reader :=
  ((r.buf.drop r.pos).take k, { r with pos := r.pos + k })

/-- Read the reader to exhaustion (`io.ReadAll` on the view). -/
def Reader.readAll (r : Reader) : Bytes :=
  r.buf.drop r.pos

/-- A Go `context.Context` argument: `nilCtx` is a literal `nil`;
`ctx cancelled` is a real context, possibly already cancelled. -/
inductive Ctx where
  | nilCtx : Ctx
  | ctx : Bool → Ctx
deriving DecidableEq, Repr

/-- `http.Header`: `none` models a nil map, `some` a (possibly empty)
association of field names to values. -/
abbrev Header := Option (List (String × List String))

/-- An `*http.Request` as the client uses it: method, URL, header map,
original body, context. -/
structure Request where
  method : String
  url : String
  header : Header
  body : Option BodyStream
  ctx : Ctx
deriving DecidableEq, Repr

/-- `http.NewRequestWithContext` (Go standard library), embedded for valid
methods and parsable URLs — the only inputs the repository feeds it.  It
fails exactly on a nil context (`"net/http: nil Context"`); a cancelled but
non-nil context constructs the request normally (the constructor never
inspects cancellation).  The fresh request's header is an empty, non-nil
map. -/
def newRequestWithContext (c : Ctx) (method url : String)
    (body : Option BodyStream) : Except Err Request :=
  match c with
  | Ctx.nilCtx => Except.error (Err.base "net/http: nil Context")
  | Ctx.ctx _ =>
      Except.ok { method := method, url := url, header := some [],
                  body := body, ctx := c }

/-- An `*http.Response` as far as the client inspects it. -/
structure Response where
  statusCode : Nat
  respBody : Bytes
deriving DecidableEq, Repr

/-- One executor invocation's result: `(res, nil)` or `(res?, err)`.
The `(nil, nil)` pair is excluded: a conforming `Doer` never returns it. -/
inductive ExecResult where
  | ok : Response → ExecResult
  | fail : Option Response → Err → ExecResult
deriving DecidableEq, Repr

/-- The `Doer` collaborator: its result as a function of how many times it
has been invoked before (the test mocks are exactly such counters) and of
the body view installed on the request for this attempt. -/
abbrev Doer := Nat → Option Reader → ExecResult

/-- `RetryPolicy`: pure predicate on status codes (`client.go`). -/
abbrev RetryPolicy := Nat → Bool

/-- `defaultRetryPolicy` (`client.go`): never retry on status. -/
def defaultRetryPolicy (statusCode : Nat) : Bool :=
  false

/-- The state threaded through the retry callback of `Client.Do`:
the closure's `res` variable, the executor invocation count, and the
observable trace of body views installed before each executor call. -/
structure DoState where
  res : Option Response
  calls : Nat
  sent : List (Option Reader)
deriving DecidableEq, Repr

/-- The state at entry of `Client.Do`'s retry phase. -/
def initState : DoState :=
  { res := none, calls := 0, sent := [] }

/-- `copyHTTPRequestBody` (`client.go`): nil body gives nil bytes and no
error; otherwise read the body fully, then close it; either failure aborts
with that error and no buffer. -/
def copyHTTPRequestBody (req : Request) : Except Err (Option Bytes) :=
  match req.body with
  | none => Except.ok none
  | some b =>
      match b.readErr with
      | some e => Except.error e
      | none =>
          match b.closeErr with
          | some e => Except.error e
          | none => Except.ok (some b.contents)

/-- `newNopCloserFromBody` (`client.go`): nil bytes give a nil body;
otherwise a fresh `io.NopCloser(bytes.NewReader(body))`, i.e. a new view
positioned at the start of the buffer. -/
def newNopCloserFromBody : Option Bytes → Option Reader
  | none => none
  | some b => some { buf := b, pos := 0 }

/-- The retry callback of `Client.Do` (`client.go` lines 208–222): install a
fresh body view, invoke the executor, propagate a transport error, and
translate a retryable status into the `ErrStatusCode` sentinel while
retaining the response. -/
def attemptBody (doer : Doer) (policy : RetryPolicy) (captured : Option Bytes)
    (s : DoState) : DoState × Option Err :=
  let installed := newNopCloserFromBody captured
  match doer s.calls installed with
  | ExecResult.fail r e =>
      ({ res := r, calls := s.calls + 1, sent := s.sent ++ [installed] },
       some e)
  | ExecResult.ok r =>
      ({ res := some r, calls := s.calls + 1, sent := s.sent ++ [installed] },
       if policy r.statusCode then some Err.statusCode else none)

/-- A retry strategy, as `Client.Do` consumes one: a function taking the
callback and the entry state to a final state and the strategy's returned
error. -/
abbrev RetrierFn := (DoState → DoState × Option Err) → DoState → DoState × Option Err

/-- The library's `noRetry` strategy (`client.go`): invoke the callback
exactly once and return its result. -/
def noRetryDo : RetrierFn :=
  fun fn s => fn s

/-- Loop of the test suite's `mockRetrier` (`client_test.go`): up to the
remaining attempt budget, invoke the callback; stop with `nil` on the first
success, otherwise remember the error and continue; when the budget runs
out, return the last error seen. -/
def mockRetrierGo (fn : DoState → DoState × Option Err) :
    Nat → DoState → Option Err → DoState × Option Err
  | 0, s, err => (s, err)
  | Nat.succ n, s, _ =>
      match fn s with
      | (s', none) => (s', none)
      | (s', some e) => mockRetrierGo fn n s' (some e)

/-- The test suite's `mockRetrier` with a maximum attempt count. -/
def mockRetrierDo (maxAttempts : Nat) : RetrierFn :=
  fun fn s => mockRetrierGo fn maxAttempts s none

/-- The outcome of `Client.Do`: the returned response and error, plus the
final callback state (executor invocation count and installed-body trace),
which instruments what the Go code's closure observed. -/
structure DoOutcome where
  res : Option Response
  err : Option Err
  final : DoState
deriving DecidableEq, Repr

/-- `Client.Do` (`client.go` lines 197–228): capture the body, failing fast
on a capture error; run the retry strategy over the attempt callback; then
classify the final error — an error matching `ErrStatusCode` is recovered
and the retained response returned with no error, any other error is
returned with a nil response. -/
def clientDo (retrier : RetrierFn) (doer : Doer) (policy : RetryPolicy)
    (req : Request) : DoOutcome :=
  match copyHTTPRequestBody req with
  | Except.error e => { res := none, err := some e, final := initState }
  | Except.ok captured =>
      match retrier (attemptBody doer policy captured) initState with
      | (s, some e) =>
          if errorsIsStatusCode e then
            { res := s.res, err := none, final := s }
          else
            { res := none, err := some e, final := s }
      | (s, none) => { res := s.res, err := none, final := s }

/-- The request a verb helper hands to `Client.Do`: construct it with
`http.NewRequestWithContext` (wrapping a construction failure in
`*RequestCreationError`) and overwrite its header map wholesale with the
caller's `headers` argument. -/
def builtRequest (c : Ctx) (method url : String) (body : Option BodyStream)
    (headers : Header) : Except Err Request :=
  match newRequestWithContext c method url body with
  | Except.error e => Except.error (Err.requestCreation e)
  | Except.ok req => Except.ok { req with header := headers }

/-- `Client.Get` (`client.go`): build a GET request with no body, set the
header map, and hand off to `Client.Do`. -/
def clientGet (retrier : RetrierFn) (doer : Doer) (policy : RetryPolicy)
    (c : Ctx) (url : String) (headers : Header) : DoOutcome :=
  match builtRequest c "GET" url none headers with
  | Except.error e => { res := none, err := some e, final := initState }
  | Except.ok req => clientDo retrier doer policy req

/-- `Client.Post` (`client.go`). -/
def clientPost (retrier : RetrierFn) (doer : Doer) (policy : RetryPolicy)
    (c : Ctx) (url : String) (body : Option BodyStream) (headers : Header) :
    DoOutcome :=
  match builtRequest c "POST" url body headers with
  | Except.error e => { res := none, err := some e, final := initState }
  | Except.ok req => clientDo retrier doer policy req

/-- `Client.Put` (`client.go`). -/
def clientPut (retrier : RetrierFn) (doer : Doer) (policy : RetryPolicy)
    (c : Ctx) (url : String) (body : Option BodyStream) (headers : Header) :
    DoOutcome :=
  match builtRequest c "PUT" url body headers with
  | Except.error e => { res := none, err := some e, final := initState }
  | Except.ok req => clientDo retrier doer policy req

/-- `Client.Patch` (`client.go`). -/
def clientPatch (retrier : RetrierFn) (doer : Doer) (policy : RetryPolicy)
    (c : Ctx) (url : String) (body : Option BodyStream) (headers : Header) :
    DoOutcome :=
  match builtRequest c "PATCH" url body headers with
  | Except.error e => { res := none, err := some e, final := initState }
  | Except.ok req => clientDo retrier doer policy req

/-- `Client.Delete` (`client.go`). -/
def clientDelete (retrier : RetrierFn) (doer : Doer) (policy : RetryPolicy)
    (c : Ctx) (url : String) (headers : Header) : DoOutcome :=
  match builtRequest c "DELETE" url none headers with
  | Except.error e => { res := none, err := some e, final := initState }
  | Except.ok req => clientDo retrier doer policy req

/-- `time.Second` in nanoseconds (Go `time.Duration`). -/
def timeSecond : Nat :=
  1000000000

/-- `defaultHTTPTimeout` (`client.go`): `60 * time.Second`. -/
def defaultHTTPTimeout : Nat :=
  60 * timeSecond

/-- The executor field of a `Client`: the default `&http.Client{Timeout:…}`
with its timeout, or an injected custom `Doer`. -/
inductive DoerImpl where
  | stdHTTP : Nat → DoerImpl
  | custom : Doer → DoerImpl

/-- The retrier field of a `Client`: the default `&noRetry{}` or an injected
custom strategy. -/
inductive RetrierImpl where
  | noRetryImpl : RetrierImpl
  | custom : RetrierFn → RetrierImpl

/-- The behaviour of a retrier field on the callback. -/
def RetrierImpl.interp : RetrierImpl → RetrierFn
  | RetrierImpl.noRetryImpl => noRetryDo
  | RetrierImpl.custom r => r

/-- The `Client` struct (`client.go`): executor, retrier, retry policy. -/
structure ClientStruct where
  client : DoerImpl
  retrier : RetrierImpl
  retryPolicy : RetryPolicy

/-- A functional option (`Option` in `client.go`). -/
abbrev ClientOption := ClientStruct → ClientStruct

/-- `WithHTTPClient` (`client.go`). -/
def withHTTPClient (d : DoerImpl) : ClientOption :=
  fun c => { c with client := d }

/-- `WithRetrier` (`client.go`). -/
def withRetrier (r : RetrierImpl) : ClientOption :=
  fun c => { c with retrier := r }

/-- `WithRetryPolicy` (`client.go`). -/
def withRetryPolicy (p : RetryPolicy) : ClientOption :=
  fun c => { c with retryPolicy := p }

/-- `NewClient` (`client.go`): start from the defaults — standard HTTP
transport with `defaultHTTPTimeout`, the `noRetry` strategy, and
`defaultRetryPolicy` — then apply the options in order. -/
def newClient (opts : List ClientOption) : ClientStruct :=
  opts.foldl (fun c opt => opt c)
    { client := DoerImpl.stdHTTP defaultHTTPTimeout,
      retrier := RetrierImpl.noRetryImpl,
      retryPolicy := defaultRetryPolicy }

/-- An executor that always returns a response with the given status. -/
def okDoer (code : Nat) : Doer :=
  fun _ _ => ExecResult.ok { statusCode := code, respBody := [] }

/-- An executor that always fails with the given transport error. -/
def failDoer (e : Err) : Doer :=
  fun _ _ => ExecResult.fail none e

/-- A bodiless GET-style request over a live (non-nil, non-cancelled)
context, used to run the client on concrete inputs. -/
def plainGetReq : Request :=
  { method := "GET", url := "whatever", header := none, body := none,
    ctx := Ctx.ctx false }

/-- A POST-style request whose body reader fails with a given error when
`io.ReadAll` consumes it. -/
def badBodyReq (e : Err) : Request :=
  { method := "POST", url := "whatever", header := none,
    body := some { contents := [], readErr := some e, closeErr := none },
    ctx := Ctx.ctx false }

/-- C3: if reading or closing the original request body fails, `Client.Do`
returns a nil response and that error immediately; the final callback state
is the entry state (zero executor invocations, no body installed), and the
result does not depend on the retry strategy or the executor at all — so
neither is ever invoked. -/
theorem c3_body_capture_fails_fast (retrier : RetrierFn) (doer : Doer)
    (policy : RetryPolicy) (req : Request) (e : Err)
    (h : copyHTTPRequestBody req = Except.error e) :
    clientDo retrier doer policy req =
      { res := none, err := some e, final := initState } ∧
    initState.calls = 0 ∧ initState.sent = ([] : List (Option Reader)) := by
  refine ⟨?_, rfl, rfl⟩
  unfold clientDo
  rw [h]

/-- C3 witness: a request whose body read fails with an error is rejected at
once, under an arbitrary concrete strategy and executor. -/
theorem c3_body_capture_fails_fast_witness :
    clientDo noRetryDo (fun _ _ => ExecResult.fail none (Err.base "x"))
        defaultRetryPolicy (badBodyReq (Err.base "boom")) =
      { res := none, err := some (Err.base "boom"), final := initState } ∧
    initState.calls = 0 ∧ initState.sent = ([] : List (Option Reader)) :=
  c3_body_capture_fails_fast noRetryDo
    (fun _ _ => ExecResult.fail none (Err.base "x"))
    defaultRetryPolicy (badBodyReq (Err.base "boom")) (Err.base "boom") rfl

/-- C8: capture/replay round trip — capture on a request with a nil body
yields nil bytes and no error; replay of nil bytes is a nil stream; replay
of a buffer is a fresh view at position zero whose full read is exactly the
buffer; and any partial read followed by reading the rest still delivers
exactly the buffer.  Replay is a pure function, so every call on the same
buffer yields this same fresh view, and reading one view (which returns an
advanced copy) never affects another. -/
theorem c8_capture_replay_roundtrip :
    (∀ m u hd c, copyHTTPRequestBody
        { method := m, url := u, header := hd, body := none, ctx := c } =
        Except.ok none) ∧
    newNopCloserFromBody none = none ∧
    (∀ b : Bytes, newNopCloserFromBody (some b) =
        some { buf := b, pos := 0 }) ∧
    (∀ b : Bytes, Reader.readAll { buf := b, pos := 0 } = b) ∧
    (∀ (b : Bytes) (k : Nat),
        (Reader.read { buf := b, pos := 0 } k).1 ++
          (Reader.read { buf := b, pos := 0 } k).2.readAll = b) := by
  refine ⟨fun m u hd c => rfl, rfl, fun b => rfl, fun b => List.drop_zero b, ?_⟩
  intro b k
  simp [Reader.read, Reader.readAll]

/-- C9: `NewClient` with no options keeps every default — the standard HTTP
transport with a 60-second timeout, the `noRetry` strategy (which invokes
the callback exactly once, on the given state, and returns its result), and
the always-false retry policy. -/
theorem c9_newclient_defaults :
    (newClient []).client = DoerImpl.stdHTTP (60 * timeSecond) ∧
    (newClient []).retrier = RetrierImpl.noRetryImpl ∧
    (∀ (fn : DoState → DoState × Option Err) (s : DoState),
        RetrierImpl.interp (newClient []).retrier fn s = fn s) ∧
    (∀ code : Nat, (newClient []).retryPolicy code = false) :=
  ⟨rfl, rfl, fun fn s => rfl, fun code => rfl⟩

/-- C10: each verb helper hands `Client.Do` a request whose header map is
exactly the caller's `headers` argument — wholesale replacing the empty
non-nil header map that `http.NewRequestWithContext` put on the fresh
request; in particular a nil (`none`) header map leaves the request with no
headers.  Stated for any successfully constructed (non-nil) context. -/
theorem c10_headers_replaced_wholesale (retrier : RetrierFn) (doer : Doer)
    (policy : RetryPolicy) (flag : Bool) (url : String) (headers : Header)
    (body : Option BodyStream) :
    (∀ m b, newRequestWithContext (Ctx.ctx flag) m url b =
        Except.ok { method := m, url := url, header := some [],
                    body := b, ctx := Ctx.ctx flag }) ∧
    clientGet retrier doer policy (Ctx.ctx flag) url headers =
      clientDo retrier doer policy
        { method := "GET", url := url, header := headers, body := none,
          ctx := Ctx.ctx flag } ∧
    clientPost retrier doer policy (Ctx.ctx flag) url body headers =
      clientDo retrier doer policy
        { method := "POST", url := url, header := headers, body := body,
          ctx := Ctx.ctx flag } ∧
    clientPut retrier doer policy (Ctx.ctx flag) url body headers =
      clientDo retrier doer policy
        { method := "PUT", url := url, header := headers, body := body,
          ctx := Ctx.ctx flag } ∧
    clientPatch retrier doer policy (Ctx.ctx flag) url body headers =
      clientDo retrier doer policy
        { method := "PATCH", url := url, header := headers, body := body,
          ctx := Ctx.ctx flag } ∧
    clientDelete retrier doer policy (Ctx.ctx flag) url headers =
      clientDo retrier doer policy
        { method := "DELETE", url := url, header := headers, body := none,
          ctx := Ctx.ctx flag } :=
  ⟨fun m b => rfl, rfl, rfl, rfl, rfl, rfl⟩

/-- C7 counterexample: with a cancelled (but non-nil) context, `Client.Get`
does not fail at request construction — the executor IS invoked (once here,
under the default single-attempt strategy) and the error surfaced is the
executor's transport error, not a `RequestCreationError`.  The claim's
"nil or cancelled context returns a RequestCreationError before the Retry
Strategy or the Request Executor is ever invoked" is therefore false for
cancelled contexts: `http.NewRequestWithContext` rejects only a nil
context and never inspects cancellation. -/
theorem c7_cancelled_context_counterexample :
    (clientGet noRetryDo
        (fun _ _ => ExecResult.fail none (Err.base "context canceled"))
        defaultRetryPolicy (Ctx.ctx true) "whatever" none).final.calls = 1 ∧
    isRequestCreationErr
      (clientGet noRetryDo
        (fun _ _ => ExecResult.fail none (Err.base "context canceled"))
        defaultRetryPolicy (Ctx.ctx true) "whatever" none).err = false :=
  ⟨rfl, rfl⟩

/-- C7 (amended): calling any of the five verb helpers with a NIL context
returns a nil response and a `RequestCreationError` wrapping the underlying
cause, before the retry strategy or the executor is ever invoked — the
result is the same for every strategy and executor and its final state is
the entry state with zero executor invocations.  (A cancelled but non-nil
context does not fail construction; see the counterexample.) -/
theorem c7_nil_context_request_creation_error (retrier : RetrierFn)
    (doer : Doer) (policy : RetryPolicy) (url : String) (headers : Header)
    (body : Option BodyStream) :
    clientGet retrier doer policy Ctx.nilCtx url headers =
      { res := none,
        err := some (Err.requestCreation (Err.base "net/http: nil Context")),
        final := initState } ∧
    clientPost retrier doer policy Ctx.nilCtx url body headers =
      { res := none,
        err := some (Err.requestCreation (Err.base "net/http: nil Context")),
        final := initState } ∧
    clientPut retrier doer policy Ctx.nilCtx url body headers =
      { res := none,
        err := some (Err.requestCreation (Err.base "net/http: nil Context")),
        final := initState } ∧
    clientPatch retrier doer policy Ctx.nilCtx url body headers =
      { res := none,
        err := some (Err.requestCreation (Err.base "net/http: nil Context")),
        final := initState } ∧
    clientDelete retrier doer policy Ctx.nilCtx url headers =
      { res := none,
        err := some (Err.requestCreation (Err.base "net/http: nil Context")),
        final := initState } ∧
    initState.calls = 0 :=
  ⟨rfl, rfl, rfl, rfl, rfl, rfl⟩

/-- C2: for a request with a non-nil body whose capture succeeds, capture
yields exactly the original stream's bytes; every invocation of the retry
callback installs a fresh reader over that single captured buffer (appended
to the trace of installed views) before calling the executor; reading that
view to exhaustion yields the captured bytes, byte-for-byte the original;
and the callback invokes the executor with precisely that fresh view, so
the executor observes the same bytes on every attempt. -/
theorem c2_body_identical_across_attempts (doer : Doer)
    (policy : RetryPolicy) (bs : BodyStream) (req : Request) (s : DoState)
    (hbody : req.body = some bs) (hread : bs.readErr = none)
    (hclose : bs.closeErr = none) :
    copyHTTPRequestBody req = Except.ok (some bs.contents) ∧
    ((attemptBody doer policy (some bs.contents) s).1).sent =
      s.sent ++ [some { buf := bs.contents, pos := 0 }] ∧
    Reader.readAll { buf := bs.contents, pos := 0 } = bs.contents ∧
    attemptBody doer policy (some bs.contents) s =
      attemptBody (fun i _ => doer i (some { buf := bs.contents, pos := 0 }))
        policy (some bs.contents) s := by
  refine ⟨?_, ?_, List.drop_zero bs.contents, rfl⟩
  · simp [copyHTTPRequestBody, hbody, hread, hclose]
  · cases h : doer s.calls (some (Reader.mk bs.contents 0)) <;>
      simp [attemptBody, newNopCloserFromBody, h]

/-- C2 witness: a concrete two-byte body, captured and installed. -/
theorem c2_body_identical_across_attempts_witness :
    copyHTTPRequestBody
      { method := "POST", url := "whatever", header := none,
        body := some { contents := [1, 2], readErr := none,
                       closeErr := none },
        ctx := Ctx.ctx false } = Except.ok (some [1, 2]) ∧
    ((attemptBody (okDoer 200) defaultRetryPolicy (some [1, 2])
        initState).1).sent =
      initState.sent ++ [some { buf := [1, 2], pos := 0 }] ∧
    Reader.readAll { buf := [1, 2], pos := 0 } = [1, 2] ∧
    attemptBody (okDoer 200) defaultRetryPolicy (some [1, 2]) initState =
      attemptBody (fun i _ => okDoer 200 i (some (Reader.mk [1, 2] 0)))
        defaultRetryPolicy (some [1, 2]) initState :=
  c2_body_identical_across_attempts (okDoer 200) defaultRetryPolicy
    { contents := [1, 2], readErr := none, closeErr := none }
    { method := "POST", url := "whatever", header := none,
      body := some { contents := [1, 2], readErr := none, closeErr := none },
      ctx := Ctx.ctx false }
    initState rfl rfl rfl

/-- C4 counterexample: the status-code marker CAN reach the caller.  The
final-error filter of `Client.Do` guards only the retry phase; the
body-capture path returns its error unfiltered.  `ErrStatusCode` is an
exported variable, so a request body whose `Read` fails with exactly
`ErrStatusCode` makes `copyHTTPRequestBody` — and hence `Do` — return a
non-nil error for which `errors.Is(err, ErrStatusCode)` is true. -/
theorem c4_marker_escapes_counterexample :
    (clientDo noRetryDo (failDoer (Err.base "x")) defaultRetryPolicy
        (badBodyReq Err.statusCode)).err = some Err.statusCode ∧
    errorsIsStatusCode Err.statusCode = true :=
  ⟨rfl, rfl⟩

/-- C4 (amended): for every retry strategy, executor and retry policy, and
every request whose body capture succeeds, any non-nil error `Client.Do`
returns never matches `ErrStatusCode` — the marker produced in the retry
phase is recovered inside `Do`.  (Only a body-capture failure that is
itself the exported marker can leak it; see the counterexample.) -/
theorem c4_marker_never_escapes_retry_phase (retrier : RetrierFn)
    (doer : Doer) (policy : RetryPolicy) (req : Request)
    (captured : Option Bytes) (e : Err)
    (hcap : copyHTTPRequestBody req = Except.ok captured)
    (herr : (clientDo retrier doer policy req).err = some e) :
    errorsIsStatusCode e = false := by
  simp only [clientDo, hcap] at herr
  rcases hres : retrier (attemptBody doer policy captured) initState with
    ⟨s, oerr⟩
  rw [hres] at herr
  cases oerr with
  | none => simp at herr
  | some e2 =>
      cases hsc : errorsIsStatusCode e2 with
      | true => simp [hsc] at herr
      | false =>
          simp [hsc] at herr
          rw [← herr]
          exact hsc

/-- C4 (amended) witness: a strategy that simply reports a transport error;
the error surfaced by `Do` does not match the marker. -/
theorem c4_marker_never_escapes_retry_phase_witness :
    errorsIsStatusCode (Err.base "t") = false :=
  c4_marker_never_escapes_retry_phase
    (fun _ s => (s, some (Err.base "t"))) (failDoer (Err.base "x"))
    defaultRetryPolicy plainGetReq none (Err.base "t") rfl rfl

/-- C6 counterexample: an always-false retry policy does NOT bound the
executor to a single invocation.  Transport failures are still retried by
the strategy: with the test suite's bounded strategy at two attempts and an
executor that always fails at transport level, the executor runs twice
even though the policy returns false for every status code. -/
theorem c6_single_invocation_counterexample :
    (∀ code : Nat, defaultRetryPolicy code = false) ∧
    (clientDo (mockRetrierDo 2) (failDoer (Err.base "connection refused"))
        defaultRetryPolicy plainGetReq).final.calls = 2 :=
  ⟨fun _ => rfl, rfl⟩

/-- C6 (amended): if the retry policy returns false for every status code
and the executor's first invocation returns a response (no transport
failure), `Client.Do` performs exactly one executor invocation regardless
of the strategy's maximum attempt count, and returns that response with a
nil error. -/
theorem c6_policy_false_single_attempt (doer : Doer) (policy : RetryPolicy)
    (req : Request) (captured : Option Bytes) (r : Response) (n : Nat)
    (hpol : ∀ code : Nat, policy code = false)
    (hcap : copyHTTPRequestBody req = Except.ok captured)
    (hdoer : doer 0 (newNopCloserFromBody captured) = ExecResult.ok r)
    (hn : 1 ≤ n) :
    (clientDo (mockRetrierDo n) doer policy req).final.calls = 1 ∧
    (clientDo (mockRetrierDo n) doer policy req).res = some r ∧
    (clientDo (mockRetrierDo n) doer policy req).err = none := by
  cases n with
  | zero => exact absurd hn (by simp)
  | succ m =>
      have hstep : attemptBody doer policy captured initState =
          ({ res := some r, calls := 1,
             sent := [newNopCloserFromBody captured] }, none) := by
        simp [attemptBody, initState, hdoer, hpol r.statusCode]
      have hrun : mockRetrierDo (m + 1) (attemptBody doer policy captured)
          initState =
          ({ res := some r, calls := 1,
             sent := [newNopCloserFromBody captured] }, none) := by
        simp [mockRetrierDo, mockRetrierGo, hstep]
      refine ⟨?_, ?_, ?_⟩ <;> simp [clientDo, hcap, hrun]

/-- C6 (amended) witness: a five-attempt strategy, a policy that never
retries, an executor that answers 200 at once — one invocation. -/
theorem c6_policy_false_single_attempt_witness :
    (clientDo (mockRetrierDo 5) (okDoer 200) defaultRetryPolicy
        plainGetReq).final.calls = 1 ∧
    (clientDo (mockRetrierDo 5) (okDoer 200) defaultRetryPolicy
        plainGetReq).res = some { statusCode := 200, respBody := [] } ∧
    (clientDo (mockRetrierDo 5) (okDoer 200) defaultRetryPolicy
        plainGetReq).err = none :=
  c6_policy_false_single_attempt (okDoer 200) defaultRetryPolicy plainGetReq
    none { statusCode := 200, respBody := [] } 5 (fun _ => rfl) rfl rfl
    (by simp)

/-- One failing step of the `mockRetrier` loop: a callback error is
remembered and the loop continues with the remaining budget. -/
theorem mockRetrierGo_step (fn : DoState → DoState × Option Err) (n : Nat)
    (s s1 : DoState) (e0 : Option Err) (e : Err) (h : fn s = (s1, some e)) :
    mockRetrierGo fn (n + 1) s e0 = mockRetrierGo fn n s1 (some e) := by
  simp only [mockRetrierGo, h]

/-- If every attempt yields a retryable-status response, the bounded loop
spends its whole budget of `k + 1` attempts, ends with the status marker,
and retains the response of the last attempt. -/
theorem mockRetrierGo_all_retryable (doer : Doer) (policy : RetryPolicy)
    (captured : Option Bytes) (resp : Nat → Response) (n : Nat)
    (hdoer : ∀ i, i < n →
      doer i (newNopCloserFromBody captured) = ExecResult.ok (resp i))
    (hpol : ∀ i, i < n → policy (resp i).statusCode = true) :
    ∀ (k : Nat) (s : DoState) (e0 : Option Err), s.calls + k + 1 ≤ n →
      ∃ s', mockRetrierGo (attemptBody doer policy captured) (k + 1) s e0 =
          (s', some Err.statusCode) ∧
        s'.res = some (resp (s.calls + k)) ∧ s'.calls = s.calls + k + 1 := by
  intro k
  induction k with
  | zero =>
      intro s e0 hle
      have hcall : s.calls < n := by omega
      have hstep : attemptBody doer policy captured s =
          (⟨some (resp s.calls), s.calls + 1,
            s.sent ++ [newNopCloserFromBody captured]⟩,
           some Err.statusCode) := by
        simp [attemptBody, hdoer s.calls hcall, hpol s.calls hcall]
      refine ⟨⟨some (resp s.calls), s.calls + 1,
        s.sent ++ [newNopCloserFromBody captured]⟩, ?_, rfl, rfl⟩
      simp only [mockRetrierGo, hstep]
  | succ m ih =>
      intro s e0 hle
      have hcall : s.calls < n := by omega
      have hstep : attemptBody doer policy captured s =
          (⟨some (resp s.calls), s.calls + 1,
            s.sent ++ [newNopCloserFromBody captured]⟩,
           some Err.statusCode) := by
        simp [attemptBody, hdoer s.calls hcall, hpol s.calls hcall]
      obtain ⟨s', hgo, hres, hcalls⟩ :=
        ih ⟨some (resp s.calls), s.calls + 1,
            s.sent ++ [newNopCloserFromBody captured]⟩ (some Err.statusCode)
          (by simp only [DoState.calls]; omega)
      simp only [DoState.calls] at hgo hres hcalls
      refine ⟨s', ?_, ?_, ?_⟩
      · rw [mockRetrierGo_step _ (m + 1) _ _ _ _ hstep]
        exact hgo
      · have hidx : s.calls + 1 + m = s.calls + (m + 1) := by omega
        rw [hidx] at hres
        exact hres
      · omega

/-- If every attempt fails at transport level, the bounded loop spends its
whole budget of `k + 1` attempts and ends with the last transport error. -/
theorem mockRetrierGo_all_fail (doer : Doer) (policy : RetryPolicy)
    (captured : Option Bytes) (rs : Nat → Option Response) (es : Nat → Err)
    (n : Nat)
    (hdoer : ∀ i, i < n →
      doer i (newNopCloserFromBody captured) = ExecResult.fail (rs i) (es i)) :
    ∀ (k : Nat) (s : DoState) (e0 : Option Err), s.calls + k + 1 ≤ n →
      ∃ s', mockRetrierGo (attemptBody doer policy captured) (k + 1) s e0 =
          (s', some (es (s.calls + k))) ∧ s'.calls = s.calls + k + 1 := by
  intro k
  induction k with
  | zero =>
      intro s e0 hle
      have hcall : s.calls < n := by omega
      have hstep : attemptBody doer policy captured s =
          (⟨rs s.calls, s.calls + 1,
            s.sent ++ [newNopCloserFromBody captured]⟩, some (es s.calls)) := by
        simp [attemptBody, hdoer s.calls hcall]
      refine ⟨⟨rs s.calls, s.calls + 1,
        s.sent ++ [newNopCloserFromBody captured]⟩, ?_, rfl⟩
      simp only [mockRetrierGo, hstep]
      rfl
  | succ m ih =>
      intro s e0 hle
      have hcall : s.calls < n := by omega
      have hstep : attemptBody doer policy captured s =
          (⟨rs s.calls, s.calls + 1,
            s.sent ++ [newNopCloserFromBody captured]⟩, some (es s.calls)) := by
        simp [attemptBody, hdoer s.calls hcall]
      obtain ⟨s', hgo, hcalls⟩ :=
        ih ⟨rs s.calls, s.calls + 1,
            s.sent ++ [newNopCloserFromBody captured]⟩ (some (es s.calls))
          (by simp only [DoState.calls]; omega)
      simp only [DoState.calls] at hgo hcalls
      have hidx : s.calls + 1 + m = s.calls + (m + 1) := by omega
      rw [hidx] at hgo
      refine ⟨s', ?_, by omega⟩
      rw [mockRetrierGo_step _ (m + 1) _ _ _ _ hstep]
      exact hgo

/-- C1: if every attempt's response has a status code the policy marks
retryable and the bounded strategy exhausts its `n ≥ 1` attempts — its
final result being the status-marker error — then `Client.Do` returns the
response retained from the last attempt together with a nil error:
exhaustion on status codes is not reported as an error to the caller. -/
theorem c1_status_exhaustion_returns_last_response (doer : Doer)
    (policy : RetryPolicy) (req : Request) (captured : Option Bytes)
    (resp : Nat → Response) (n : Nat)
    (hcap : copyHTTPRequestBody req = Except.ok captured)
    (hn : 1 ≤ n)
    (hdoer : ∀ i, i < n →
      doer i (newNopCloserFromBody captured) = ExecResult.ok (resp i))
    (hpol : ∀ i, i < n → policy (resp i).statusCode = true) :
    (mockRetrierDo n (attemptBody doer policy captured) initState).2 =
      some Err.statusCode ∧
    (clientDo (mockRetrierDo n) doer policy req).res = some (resp (n - 1)) ∧
    (clientDo (mockRetrierDo n) doer policy req).err = none := by
  obtain ⟨m, rfl⟩ : ∃ m, n = m + 1 := ⟨n - 1, by omega⟩
  obtain ⟨s', hgo, hres, hcalls⟩ :=
    mockRetrierGo_all_retryable doer policy captured resp (m + 1) hdoer hpol
      m initState none (by simp [initState])
  simp only [initState, Nat.zero_add] at hgo hres
  have hrun : mockRetrierDo (m + 1) (attemptBody doer policy captured)
      initState = (s', some Err.statusCode) := by
    simpa [mockRetrierDo, initState] using hgo
  refine ⟨by rw [hrun], ?_, ?_⟩
  · simp only [clientDo, hcap, hrun, errorsIsStatusCode, if_pos,
      Nat.add_sub_cancel]
    exact hres
  · simp [clientDo, hcap, hrun, errorsIsStatusCode]

/-- C1 witness: two attempts, every response a 500 under a `status ≥ 500`
policy — `Do` yields the second 500 response and a nil error. -/
theorem c1_status_exhaustion_returns_last_response_witness :
    (mockRetrierDo 2
        (attemptBody (okDoer 500) (fun code => decide (500 ≤ code)) none)
        initState).2 = some Err.statusCode ∧
    (clientDo (mockRetrierDo 2) (okDoer 500)
        (fun code => decide (500 ≤ code)) plainGetReq).res =
      some { statusCode := 500, respBody := [] } ∧
    (clientDo (mockRetrierDo 2) (okDoer 500)
        (fun code => decide (500 ≤ code)) plainGetReq).err = none :=
  c1_status_exhaustion_returns_last_response (okDoer 500)
    (fun code => decide (500 ≤ code)) plainGetReq none
    (fun _ => { statusCode := 500, respBody := [] }) 2 rfl (by omega)
    (fun i _ => rfl) (fun i _ => rfl)

/-- C5: if the executor fails with a transport-level error (an error not
matching the status marker — the spec's taxonomy keeps the two disjoint)
on every attempt and the bounded strategy exhausts its `n ≥ 1` attempts,
returning the last such error, then `Client.Do` returns a nil response
together with that error, propagated unchanged. -/
theorem c5_transport_exhaustion_propagates (doer : Doer)
    (policy : RetryPolicy) (req : Request) (captured : Option Bytes)
    (rs : Nat → Option Response) (es : Nat → Err) (n : Nat)
    (hcap : copyHTTPRequestBody req = Except.ok captured)
    (hn : 1 ≤ n)
    (hdoer : ∀ i, i < n →
      doer i (newNopCloserFromBody captured) = ExecResult.fail (rs i) (es i))
    (htrans : ∀ i, i < n → errorsIsStatusCode (es i) = false) :
    (clientDo (mockRetrierDo n) doer policy req).res = none ∧
    (clientDo (mockRetrierDo n) doer policy req).err = some (es (n - 1)) := by
  obtain ⟨m, rfl⟩ : ∃ m, n = m + 1 := ⟨n - 1, by omega⟩
  obtain ⟨s', hgo, hcalls⟩ :=
    mockRetrierGo_all_fail doer policy captured rs es (m + 1) hdoer
      m initState none (by simp [initState])
  simp only [initState, Nat.zero_add] at hgo
  have hrun : mockRetrierDo (m + 1) (attemptBody doer policy captured)
      initState = (s', some (es m)) := by
    simpa [mockRetrierDo, initState] using hgo
  have hsc : errorsIsStatusCode (es m) = false := htrans m (by omega)
  constructor <;> simp [clientDo, hcap, hrun, hsc]

/-- C5 witness: two attempts, both refused at transport level — `Do`
surfaces the second connection error unchanged with a nil response. -/
theorem c5_transport_exhaustion_propagates_witness :
    (clientDo (mockRetrierDo 2) (failDoer (Err.base "connection refused"))
        defaultRetryPolicy plainGetReq).res = none ∧
    (clientDo (mockRetrierDo 2) (failDoer (Err.base "connection refused"))
        defaultRetryPolicy plainGetReq).err =
      some (Err.base "connection refused") :=
  c5_transport_exhaustion_propagates
    (failDoer (Err.base "connection refused")) defaultRetryPolicy
    plainGetReq none (fun _ => none)
    (fun _ => Err.base "connection refused") 2 rfl (by omega)
    (fun i _ => rfl) (fun i _ => rfl)

end Avoca
